import Mathlib

/-!
# Verification of the LINAPS artillery pointing monitor core

Shallow embedding of the telemetry interpretation and status-classification
engine of `src/app/page.js`.  JavaScript numbers are modelled as exact
rationals (`ℚ`); the session state held in the React component is modelled
as an explicit record, and the WebSocket `onmessage` handler as a state
transformer.  All definitions are translated from the source file.
-/

namespace LINAPS

/-- `clamp(v, min, max) = Math.max(min, Math.min(max, v))` (page.js line 17). -/
def clamp (v mn mx : ℚ) : ℚ := max mn (min mx v)

/-- `getColorClass(error)` (page.js lines 19–24): returns the CSS severity
class from the absolute error. -/
def getColorClass (error : ℚ) : String :=
  let abs := |error|
  if abs < 0.5 then "status-good"
  else if abs < 1.5 then "status-warning"
  else "status-bad"

/-- `getDynamicScale(error)` (page.js lines 88–95): ascending-threshold
lookup of the display scale from the absolute error. -/
def getDynamicScale (error : ℚ) : ℚ :=
  let abs := |error|
  if abs ≤ 15 then 15
  else if abs ≤ 30 then 30
  else if abs ≤ 45 then 45
  else if abs ≤ 90 then 90
  else 180

/-- `getBarPercentage(error, scale)` (page.js line 100). -/
def getBarPercentage (error scale : ℚ) : ℚ :=
  clamp (|error| / scale * 100) 0 100

/-- The on-target computation (page.js lines 83–86):
`Math.abs(rollError) < 0.2 && Math.abs(pitchError) < 0.2`. -/
def isAtTargetCalc (rollError pitchError : ℚ) : Bool :=
  decide (|rollError| < 0.2) && decide (|pitchError| < 0.2)

/-! ## C1: severity classification -/

/-- C1: `classifySeverity`/`getColorClass` returns `good` iff |e| < 0.5,
`warning` iff 0.5 ≤ |e| < 1.5, `bad` iff |e| ≥ 1.5; the boundary inputs
|e| = 0.5 and |e| = 1.5 resolve to `warning` and `bad` respectively. -/
theorem severity_thresholds (e : ℚ) :
    (getColorClass e = "status-good" ↔ |e| < 0.5) ∧
    (getColorClass e = "status-warning" ↔ 0.5 ≤ |e| ∧ |e| < 1.5) ∧
    (getColorClass e = "status-bad" ↔ 1.5 ≤ |e|) ∧
    (|e| = 0.5 → getColorClass e = "status-warning") ∧
    (|e| = 1.5 → getColorClass e = "status-bad") := by
  rcases lt_or_le |e| 0.5 with h1 | h1
  · have hC : getColorClass e = "status-good" := by simp [getColorClass, h1]
    refine ⟨by simp [hC, h1], ?_, ?_, ?_, ?_⟩
    · simp only [hC]; constructor
      · intro h; exact absurd h (by decide)
      · rintro ⟨h, -⟩; linarith
    · simp only [hC]; constructor
      · intro h; exact absurd h (by decide)
      · intro h; linarith
    · intro h; rw [h] at h1; norm_num at h1
    · intro h; rw [h] at h1; norm_num at h1
  · rcases lt_or_le |e| 1.5 with h2 | h2
    · have hC : getColorClass e = "status-warning" := by
        simp [getColorClass, not_lt.mpr h1, h2]
      refine ⟨?_, by simp [hC, h1, h2], ?_, fun _ => hC, ?_⟩
      · simp only [hC]; constructor
        · intro h; exact absurd h (by decide)
        · intro h; linarith
      · simp only [hC]; constructor
        · intro h; exact absurd h (by decide)
        · intro h; linarith
      · intro h; rw [h] at h2; norm_num at h2
    · have hC : getColorClass e = "status-bad" := by
        simp [getColorClass, not_lt.mpr h1, not_lt.mpr h2]
      refine ⟨?_, ?_, by simp [hC, h2], ?_, fun _ => hC⟩
      · simp only [hC]; constructor
        · intro h; exact absurd h (by decide)
        · intro h; linarith
      · simp only [hC]; constructor
        · intro h; exact absurd h (by decide)
        · rintro ⟨-, h⟩; linarith
      · intro h; rw [h] at h2; norm_num at h2

/-- Witness for C1 at the boundary inputs 0.5 and 1.5. -/
theorem severity_thresholds_witness :
    getColorClass 0.5 = "status-warning" ∧ getColorClass 1.5 = "status-bad" :=
  ⟨(severity_thresholds 0.5).2.2.2.1 (by norm_num),
   (severity_thresholds 1.5).2.2.2.2 (by norm_num)⟩

/-! ## C2: adaptive scale selection -/

/-- C2: on a nonnegative magnitude `m`, `getDynamicScale` returns a member of
{15, 30, 45, 90, 180}; when `m ≤ 90` it is ≥ `m` and is the smallest such
tier; when `m > 90` it is 180. -/
theorem scale_selection (m : ℚ) (hm : 0 ≤ m) :
    getDynamicScale m ∈ ([15, 30, 45, 90, 180] : List ℚ) ∧
    (m ≤ 90 → m ≤ getDynamicScale m ∧
      ∀ t ∈ ([15, 30, 45, 90, 180] : List ℚ), m ≤ t → getDynamicScale m ≤ t) ∧
    (90 < m → getDynamicScale m = 180) := by
  have habs : |m| = m := abs_of_nonneg hm
  simp only [getDynamicScale, habs]
  rcases le_or_lt m 15 with h15 | h15
  · simp only [if_pos h15]
    refine ⟨by norm_num, fun _ => ⟨h15, ?_⟩, fun h90 => absurd h90 (by push_neg; linarith)⟩
    intro t ht _
    fin_cases ht <;> norm_num
  · rcases le_or_lt m 30 with h30 | h30
    · simp only [if_neg (not_le.mpr h15), if_pos h30]
      refine ⟨by norm_num, fun _ => ⟨h30, ?_⟩, fun h90 => absurd h90 (by push_neg; linarith)⟩
      intro t ht hmt
      fin_cases ht <;> [linarith; linarith; linarith; linarith; linarith]
    · rcases le_or_lt m 45 with h45 | h45
      · simp only [if_neg (not_le.mpr h15), if_neg (not_le.mpr h30), if_pos h45]
        refine ⟨by norm_num, fun _ => ⟨h45, ?_⟩, fun h90 => absurd h90 (by push_neg; linarith)⟩
        intro t ht hmt
        fin_cases ht <;> [linarith; linarith; linarith; linarith; linarith]
      · rcases le_or_lt m 90 with h90 | h90
        · simp only [if_neg (not_le.mpr h15), if_neg (not_le.mpr h30),
            if_neg (not_le.mpr h45), if_pos h90]
          refine ⟨by norm_num, fun _ => ⟨h90, ?_⟩,
            fun h90' => absurd h90' (by push_neg; linarith)⟩
          intro t ht hmt
          fin_cases ht <;> [linarith; linarith; linarith; linarith; linarith]
        · simp only [if_neg (not_le.mpr h15), if_neg (not_le.mpr h30),
            if_neg (not_le.mpr h45), if_neg (not_le.mpr h90)]
          exact ⟨by norm_num, fun hle => absurd hle (not_le.mpr h90),
            fun _ => by first | rfl | trivial⟩

/-- Witness for C2: the scale at magnitudes 200, 15 and 15.0001. -/
theorem scale_selection_witness :
    getDynamicScale 200 = 180 ∧
    getDynamicScale 15 ∈ ([15, 30, 45, 90, 180] : List ℚ) ∧
    (15 : ℚ) ≤ getDynamicScale 15 ∧
    getDynamicScale (150001/10000) = 30 :=
  ⟨(scale_selection 200 (by norm_num)).2.2 (by norm_num),
   (scale_selection 15 (by norm_num)).1,
   ((scale_selection 15 (by norm_num)).2.1 (by norm_num)).1,
   by
    have h : |(150001/10000 : ℚ)| = 150001/10000 := abs_of_nonneg (by norm_num)
    simp only [getDynamicScale, h]
    norm_num⟩

/-! ## C3: on-target detection -/

/-- C3: the on-target flag is true iff both |pitchError| < 0.2 and
|rollError| < 0.2, with both comparisons strict; an error of exactly 0.2 in
either axis makes the flag false. -/
theorem on_target_strict (pitchError rollError : ℚ) :
    (isAtTargetCalc rollError pitchError = true ↔
      |pitchError| < 0.2 ∧ |rollError| < 0.2) ∧
    (|pitchError| = 0.2 → isAtTargetCalc rollError pitchError = false) ∧
    (|rollError| = 0.2 → isAtTargetCalc rollError pitchError = false) := by
  have hiff : isAtTargetCalc rollError pitchError = true ↔
      |pitchError| < 0.2 ∧ |rollError| < 0.2 := by
    simp [isAtTargetCalc, and_comm]
  refine ⟨hiff, ?_, ?_⟩
  · intro h
    cases hb : isAtTargetCalc rollError pitchError with
    | false => rfl
    | true => exact absurd (hiff.mp hb).1 (by rw [h]; norm_num)
  · intro h
    cases hb : isAtTargetCalc rollError pitchError with
    | false => rfl
    | true => exact absurd (hiff.mp hb).2 (by rw [h]; norm_num)

/-- Witness for C3: pitch error 0.19 is on target (with roll 0), pitch error
exactly 0.2 is not. -/
theorem on_target_strict_witness :
    isAtTargetCalc 0 0.19 = true ∧ isAtTargetCalc 0 0.2 = false :=
  ⟨(on_target_strict 0.19 0).1.mpr
    ⟨by rw [abs_of_nonneg (by norm_num : (0:ℚ) ≤ 0.19)]; norm_num,
     by rw [abs_zero]; norm_num⟩,
   (on_target_strict 0.2 0).2.1 (abs_of_nonneg (by norm_num))⟩

/-! ## C4: fill percentage -/

/-- Helper: with a positive scale the lower clamp never engages, so the bar
percentage is exactly `min 100 (100·|e|/s)`. -/
theorem getBarPercentage_eq_min (e s : ℚ) (hs : 0 < s) :
    getBarPercentage e s = min 100 (100 * |e| / s) := by
  have h0 : (0:ℚ) ≤ |e| / s * 100 := by positivity
  have heq : getBarPercentage e s = min 100 (|e| / s * 100) := by
    unfold getBarPercentage clamp
    exact max_eq_right (le_min (by norm_num) h0)
  rw [heq]
  congr 1
  ring

/-- C4: for a positive scale, `getBarPercentage e s = min 100 (100·|e|/s)`
and the result always lies in [0, 100]. -/
theorem fill_percent_clamped (e s : ℚ) (hs : 0 < s) :
    getBarPercentage e s = min 100 (100 * |e| / s) ∧
    0 ≤ getBarPercentage e s ∧ getBarPercentage e s ≤ 100 := by
  have heq := getBarPercentage_eq_min e s hs
  refine ⟨heq, ?_, ?_⟩
  · rw [heq]
    exact le_min (by norm_num) (by positivity)
  · rw [heq]
    exact min_le_left _ _

/-- Witness for C4 at error 1, scale 15. -/
theorem fill_percent_clamped_witness :
    getBarPercentage 1 15 = min 100 (100 * |(1:ℚ)| / 15) ∧
    0 ≤ getBarPercentage 1 15 ∧ getBarPercentage 1 15 ≤ 100 :=
  fill_percent_clamped 1 15 (by norm_num)

/-! ## C9: the dynamic scale always covers the error up to 180 -/

/-- Helper: the selected scale is always positive. -/
theorem getDynamicScale_pos (e : ℚ) : 0 < getDynamicScale e := by
  simp only [getDynamicScale]
  split_ifs <;> norm_num

/-- Helper: for |e| ≤ 180 the selected scale is at least |e|. -/
theorem abs_le_getDynamicScale (e : ℚ) (h : |e| ≤ 180) : |e| ≤ getDynamicScale e := by
  simp only [getDynamicScale]
  split_ifs with h1 h2 h3 h4
  exacts [h1, h2, h3, h4, h]

/-- C9: when |e| ≤ 180 the selected scale satisfies
`getDynamicScale e ≥ |e|`, so the clamp never engages and the bar percentage
is exactly `100·|e|/scale`; the raw percentage can exceed 100 only when
|e| > 180. -/
theorem dynamic_scale_no_saturation (e : ℚ) :
    (|e| ≤ 180 → |e| ≤ getDynamicScale e ∧
      getBarPercentage e (getDynamicScale e) = 100 * |e| / getDynamicScale e) ∧
    (100 < 100 * |e| / getDynamicScale e → 180 < |e|) := by
  have hpos := getDynamicScale_pos e
  have key : |e| ≤ 180 → 100 * |e| / getDynamicScale e ≤ 100 := by
    intro h180
    have hle := abs_le_getDynamicScale e h180
    rw [div_le_iff₀ hpos]
    nlinarith
  constructor
  · intro h180
    refine ⟨abs_le_getDynamicScale e h180, ?_⟩
    rw [getBarPercentage_eq_min e _ hpos]
    exact min_eq_right (key h180)
  · intro hgt
    by_contra hc
    push_neg at hc
    exact absurd (key hc) (not_le.mpr hgt)

/-- Witness for C9 at error 45 (scale 45, fill exactly 100). -/
theorem dynamic_scale_no_saturation_witness :
    |(45:ℚ)| ≤ getDynamicScale 45 ∧
    getBarPercentage 45 (getDynamicScale 45) = 100 * |(45:ℚ)| / getDynamicScale 45 :=
  (dynamic_scale_no_saturation 45).1
    (by rw [abs_of_nonneg (by norm_num : (0:ℚ) ≤ 45)]; norm_num)

/-! ## Session state and the inbound-frame handler -/

/-- An orientation payload (`data.imu`). -/
structure ImuData where
  pitch : ℚ
  roll : ℚ
  yaw : ℚ
  heading : ℚ

/-- A position payload (`data.gnss`). -/
structure GnssData where
  latitude : ℚ
  longitude : ℚ
  altitude : ℚ

/-- A correction payload (`data.corrections`). -/
structure CorrectionsData where
  x : ℚ
  y : ℚ
  z : ℚ

/-- A target payload (`data.target`). -/
structure TargetData where
  pitch : ℚ
  roll : ℚ
  yaw : ℚ

/-- A decoded inbound frame: each of the four fields is independently
optional (§6 of the spec; `data.imu` / `data.gnss` / `data.corrections` /
`data.target` in the handler). -/
structure FrameData where
  imu : Option ImuData
  gnss : Option GnssData
  corrections : Option CorrectionsData
  target : Option TargetData

/-- The React component's session state: the `useState` hooks of
`PostureMonitor` (page.js lines 6–15).  `connected` models the Connection
State (readyState OPEN of the socket / the `connected` flag). -/
structure SessionState where
  pitch : ℚ
  roll : ℚ
  yaw : ℚ
  heading : ℚ
  gnss : GnssData
  connected : Bool
  target : TargetData
  corrections : CorrectionsData

/-- The `useState` initial values (page.js lines 6–13). -/
def initialState : SessionState :=
  { pitch := 0, roll := 0, yaw := 0, heading := 0,
    gnss := ⟨0, 0, 0⟩, connected := false,
    target := ⟨0, 0, 0⟩, corrections := ⟨0, 0, 0⟩ }

/-- The body of the `try` block of `socket.onmessage` after a successful
`JSON.parse` (page.js lines 38–68): each present field is applied by its own
`if`, absent fields touch nothing. -/
def applyFrameData (s : SessionState) (data : FrameData) : SessionState :=
  let s := match data.imu with
    | some imu => { s with pitch := imu.pitch, roll := imu.roll,
                           yaw := imu.yaw, heading := imu.heading }
    | none => s
  let s := match data.gnss with
    | some g => { s with gnss := ⟨g.latitude, g.longitude, g.altitude⟩ }
    | none => s
  let s := match data.corrections with
    | some c => { s with corrections := ⟨c.x, c.y, c.z⟩ }
    | none => s
  match data.target with
    | some t => { s with target := ⟨t.pitch, t.roll, t.yaw⟩ }
    | none => s

/-- `socket.onmessage` (page.js lines 34–70): the raw frame text goes
through `JSON.parse` inside a `try`; a decode failure is caught, logged and
the frame discarded.  The decode result is modelled as `Option FrameData`
(`none` = malformed frame). -/
def onmessage (s : SessionState) (decoded : Option FrameData) : SessionState :=
  match decoded with
  | some data => applyFrameData s data
  | none => s

/-- `rollError = roll - target.roll` (page.js line 79). -/
def rollError (s : SessionState) : ℚ := s.roll - s.target.roll

/-- `pitchError = pitch - target.pitch` (page.js line 80). -/
def pitchError (s : SessionState) : ℚ := s.pitch - s.target.pitch

/-- The on-target flag, recomputed from the current errors (the `useEffect`
at page.js lines 83–86). -/
def isAtTarget (s : SessionState) : Bool :=
  isAtTargetCalc (rollError s) (pitchError s)

/-! ## C5: malformed frames mutate nothing -/

/-- C5: a frame whose payload fails to decode leaves the whole session state
unchanged; in particular the state after a valid frame followed by a
malformed frame equals the state after the valid frame alone. -/
theorem malformed_frame_no_mutation (s : SessionState) (d : FrameData) :
    onmessage s none = s ∧
    onmessage (onmessage s (some d)) none = onmessage s (some d) :=
  ⟨rfl, rfl⟩

/-! ## C8: present payload fields are applied independently -/

/-- C8: decoding a frame overwrites exactly the entities whose payload is
present: the orientation sample follows `imu`, the position sample follows
`gnss`, the correction vector follows `corrections`, the target follows
`target`, each independently; everything else (e.g. the connection state)
is untouched. -/
theorem frame_fields_applied_independently (s : SessionState) (d : FrameData) :
    ((applyFrameData s d).pitch, (applyFrameData s d).roll,
      (applyFrameData s d).yaw, (applyFrameData s d).heading) =
      (match d.imu with
       | some imu => (imu.pitch, imu.roll, imu.yaw, imu.heading)
       | none => (s.pitch, s.roll, s.yaw, s.heading)) ∧
    (applyFrameData s d).gnss =
      (match d.gnss with
       | some g => ⟨g.latitude, g.longitude, g.altitude⟩
       | none => s.gnss) ∧
    (applyFrameData s d).corrections =
      (match d.corrections with
       | some c => ⟨c.x, c.y, c.z⟩
       | none => s.corrections) ∧
    (applyFrameData s d).target =
      (match d.target with
       | some t => ⟨t.pitch, t.roll, t.yaw⟩
       | none => s.target) ∧
    (applyFrameData s d).connected = s.connected := by
  obtain ⟨i, g, c, t⟩ := d
  cases i <;> cases g <;> cases c <;> cases t <;>
    exact ⟨rfl, rfl, rfl, rfl, rfl⟩

/-! ## The session exporter and the confirmation action -/

/-- JavaScript `Number.prototype.toFixed(f)` on a nonnegative rational: the
printed integer is the one closest to `x·10^f`, ties to the larger
(ECMA-262 `Number.prototype.toFixed`, step "pick the larger n"), then the
digits are split `f` places from the right. -/
def toFixedNonneg (x : ℚ) (f : ℕ) : String :=
  let scaled : ℕ := (round (x * (10 ^ f : ℚ))).toNat
  let ip := scaled / 10 ^ f
  let fp := scaled % 10 ^ f
  if f = 0 then toString ip
  else
    let fs := toString fp
    toString ip ++ "." ++ String.mk (List.replicate (f - fs.length) '0') ++ fs

/-- `x.toFixed(f)`: a negative `x` formats `-x` behind a leading minus. -/
def toFixed (x : ℚ) (f : ℕ) : String :=
  if x < 0 then "-" ++ toFixedNonneg (-x) f else toFixedNonneg x f

/-- `saveToFile` (page.js lines 113–143): the text of the session record,
mirroring the template literal.  The browser timestamp
`new Date().toLocaleString` and the Blob/anchor download side effect are
external: the timestamp is passed in and the produced text is returned. -/
def saveToFile (s : SessionState) (ts : String) : String :=
  "\nARTILLERY POINTING LOG\nTime: " ++ ts ++
  "\n\nIMU:\n  Pitch: " ++ toFixed s.pitch 3 ++
  "°\n  Roll : " ++ toFixed s.roll 3 ++
  "°\n  Yaw  : " ++ toFixed s.yaw 3 ++
  "°\n\nTarget:\n  Pitch: " ++ toFixed s.target.pitch 3 ++
  "°\n  Roll : " ++ toFixed s.target.roll 3 ++
  "°\n\nErrors:\n  Pitch: " ++ toFixed (pitchError s) 3 ++
  "°\n  Roll : " ++ toFixed (rollError s) 3 ++
  "°\n\nGNSS:\n  Lat: " ++ toFixed s.gnss.latitude 6 ++
  "\n  Lon: " ++ toFixed s.gnss.longitude 6 ++
  "\n  Alt: " ++ toFixed s.gnss.altitude 2 ++
  " m\n\nStatus: " ++ (if isAtTarget s then "ON TARGET" else "ADJUSTING") ++ "\n"

/-- `JSON.stringify({ command: c })`. -/
def serializeCommand (c : String) : String :=
  "\x7b\"command\":\"" ++ c ++ "\"\x7d"

/-- The observable outcome of one press of the SET button. -/
structure SetResult where
  state : SessionState
  sentCommands : List String
  savedRecord : Option String
  notConnected : Bool

/-- `handleSet` (page.js lines 145–153): when the socket is OPEN, send
`{"command":"SET"}` and save the record; otherwise alert
`WebSocket not connected` and do nothing else.  No session state is
written either way. -/
def handleSet (s : SessionState) (ts : String) : SetResult :=
  if s.connected then
    { state := s, sentCommands := [serializeCommand "SET"],
      savedRecord := some (saveToFile s ts), notConnected := false }
  else
    { state := s, sentCommands := [], savedRecord := none, notConnected := true }

/-! ## C6: the confirmation action is gated on the connection -/

/-- C6: a confirmation attempted while disconnected fails with the
NotConnected condition, produces no record and sends no command; while
connected it sends `{"command":"SET"}` exactly once and produces a record. -/
theorem set_requires_connection (s : SessionState) (ts : String) :
    (s.connected = false →
      handleSet s ts = { state := s, sentCommands := [],
                         savedRecord := none, notConnected := true }) ∧
    (s.connected = true →
      (handleSet s ts).sentCommands = [serializeCommand "SET"] ∧
      (handleSet s ts).savedRecord = some (saveToFile s ts) ∧
      (handleSet s ts).notConnected = false) := by
  constructor
  · intro h; simp [handleSet, h]
  · intro h; simp [handleSet, h]

/-- Witness for C6: SET from the initial (disconnected) state fails with no
side effect; SET from a connected state sends the command once. -/
theorem set_requires_connection_witness :
    handleSet initialState "ts" =
      { state := initialState, sentCommands := [], savedRecord := none,
        notConnected := true } ∧
    (handleSet { initialState with connected := true } "ts").sentCommands =
      [serializeCommand "SET"] :=
  ⟨(set_requires_connection initialState "ts").1 rfl,
   ((set_requires_connection { initialState with connected := true } "ts").2 rfl).1⟩

/-! ## C7: the session record format -/

/-- Join a list of lines with newlines (no trailing separator). -/
def joinLines : List String → String
  | [] => ""
  | [l] => l
  | l :: ls => l ++ "\n" ++ joinLines ls

/-- The session record as §6 of the spec lists it, line by line: a header
line, a timestamp, an orientation block (pitch/roll/yaw to 3 decimal places,
degree-suffixed), a target block (pitch/roll to 3 decimals), an error block
(pitch/roll to 3 decimals), a position block (latitude/longitude to 6
decimals, altitude to 2 decimals with its unit) and a status line that is
`ON TARGET` exactly when the on-target flag holds, else `ADJUSTING`. -/
def sessionRecordSpecLines (s : SessionState) (ts : String) : List String :=
  ["",
   "ARTILLERY POINTING LOG",
   "Time: " ++ ts,
   "",
   "IMU:",
   "  Pitch: " ++ toFixed s.pitch 3 ++ "°",
   "  Roll : " ++ toFixed s.roll 3 ++ "°",
   "  Yaw  : " ++ toFixed s.yaw 3 ++ "°",
   "",
   "Target:",
   "  Pitch: " ++ toFixed s.target.pitch 3 ++ "°",
   "  Roll : " ++ toFixed s.target.roll 3 ++ "°",
   "",
   "Errors:",
   "  Pitch: " ++ toFixed (pitchError s) 3 ++ "°",
   "  Roll : " ++ toFixed (rollError s) 3 ++ "°",
   "",
   "GNSS:",
   "  Lat: " ++ toFixed s.gnss.latitude 6,
   "  Lon: " ++ toFixed s.gnss.longitude 6,
   "  Alt: " ++ toFixed s.gnss.altitude 2 ++ " m",
   "",
   "Status: " ++ (if isAtTarget s then "ON TARGET" else "ADJUSTING"),
   ""]

/-- Helper: string concatenation is associative. -/
theorem string_append_assoc (a b c : String) : a ++ b ++ c = a ++ (b ++ c) := by
  apply String.ext
  simp [String.data_append, List.append_assoc]

set_option maxRecDepth 40000 in
/-- C7: the record produced on confirmation is exactly the spec's line
sequence — header, timestamp, orientation block (3 decimals, degree
suffix), target block, error block, position block (6/6/2 decimals, unit on
the altitude), then a status line that is literally `ON TARGET` when the
on-target flag is true at confirmation time and `ADJUSTING` otherwise. -/
theorem record_format (s : SessionState) (ts : String) :
    saveToFile s ts = joinLines (sessionRecordSpecLines s ts) := by
  simp only [saveToFile, sessionRecordSpecLines, joinLines, string_append_assoc]
  rfl

/-! ## C10: a successful confirmation leaves the session state unchanged -/

/-- C10: SET never writes session state — connected or not, the state after
`handleSet` is the state before; when connected its only effects are the
single outbound command and the record artifact; and the target is not
locally zeroed: it changes only when a target payload arrives. -/
theorem set_preserves_state (s : SessionState) (ts : String) (d : FrameData) :
    (handleSet s ts).state = s ∧
    (s.connected = true →
      (handleSet s ts).sentCommands = [serializeCommand "SET"] ∧
      (handleSet s ts).savedRecord = some (saveToFile s ts)) ∧
    (d.target = none → (applyFrameData s d).target = s.target) := by
  refine ⟨?_, ?_, ?_⟩
  · cases hc : s.connected <;> simp [handleSet, hc]
  · intro h; simp [handleSet, h]
  · obtain ⟨i, g, c, t⟩ := d
    intro ht
    cases i <;> cases g <;> cases c <;> simp_all [applyFrameData]

/-- Witness for C10: SET from a connected state preserves it; an
all-absent frame leaves the target untouched. -/
theorem set_preserves_state_witness :
    (handleSet { initialState with connected := true } "ts").state =
      { initialState with connected := true } ∧
    (applyFrameData initialState ⟨none, none, none, none⟩).target =
      initialState.target :=
  ⟨(set_preserves_state { initialState with connected := true } "ts"
      ⟨none, none, none, none⟩).1,
   (set_preserves_state initialState "ts" ⟨none, none, none, none⟩).2.2 rfl⟩

end LINAPS
